import Mathlib

/-!
Shallow embedding of the `rjq` crate (src/lib.rs): a Redis-backed job queue.

The store is modelled as an association list of record keys to `(Job, ttl)`
pairs plus the single pending-ids list `{name}:ids`.  External effects that
can fail (the Redis connection, the timing of the handler's completion
message on the mpsc channel) are supplied through an `Oracle`.  One pass of
the body of the `loop` in `Queue::work` is `workIteration`; the loop itself
is `workLoop`, fuel-indexed.
-/

namespace Rjq

/-- Job status, mirroring `enum Status` in src/lib.rs. -/
inductive Status
  /-- Job is queued. -/
  | QUEUED
  /-- Job is running; carries an optional intermediate result string. -/
  | RUNNING (payload : Option String)
  /-- Job was lost - timeout exceeded. -/
  | LOST
  /-- Job finished successfully. -/
  | FINISHED (result : Option String)
  /-- Job failed, with error message and backtrace. -/
  | FAILED (message : String) (backtrace : String)
  deriving DecidableEq, Repr

/-- The `Status::RUNNING(_)` pattern of the supervision loop: true for a
RUNNING status with any payload. -/
def Status.isRunning : Status → Bool
  | Status.RUNNING _ => true
  | _ => false

/-- Terminal statuses: FINISHED, FAILED, LOST. -/
def Status.isTerminal : Status → Bool
  | Status.FINISHED _ => true
  | Status.FAILED _ _ => true
  | Status.LOST => true
  | _ => false

/-- The persisted job record, mirroring `struct Job` in src/lib.rs. -/
structure Job where
  id : String
  status : Status
  args : List String
  deriving DecidableEq, Repr

/-- `Job::new`: fresh record with status QUEUED; the id is the caller's when
supplied, otherwise the freshly generated uuid (passed in explicitly, since
uuid generation is an external effect). -/
def Job.new (id : Option String) (freshId : String) (args : List String) : Job :=
  { id := id.getD freshId, status := Status.QUEUED, args := args }

/-- The error kinds of the crate's `errors::ErrorKind` (foreign links Redis
and Serde carry no payload that the claims need). -/
inductive ErrorKind
  | JobFailed (message : String) (backtrace : String)
  | JobQueued
  | JobLost
  | JobRunning
  | Redis
  | Serde
  deriving DecidableEq, Repr

/-- Key of the serialized record of job `id`: `{name}:{id}`. -/
def recordKey (name id : String) : String := name ++ ":" ++ id

/-- Key of the pending-ids list: `{name}:ids`. -/
def idsKey (name : String) : String := name ++ ":ids"

/-- The Redis store, restricted to what the crate uses: record keys mapped to
a serialized `Job` with the ttl of its last write, and the pending-ids list. -/
structure Store where
  records : List (String × Job × Nat)
  pending : List String
  deriving Repr

/-- `GET key` on a record key: the most recent write wins. -/
def Store.get (s : Store) (k : String) : Option (Job × Nat) :=
  (s.records.find? (fun r => r.1 == k)).map (fun r => r.2)

/-- `SET key value EX ttl`: overwrite the record under `k`. -/
def Store.setEx (s : Store) (k : String) (j : Job) (t : Nat) : Store :=
  { s with records := (k, j, t) :: s.records }

/-- `RPUSH {name}:ids id`. -/
def Store.rpush (s : Store) (id : String) : Store :=
  { s with pending := s.pending ++ [id] }

/-- `BLPOP {name}:ids wait`: pops the head of the pending list and returns
the redis reply `[listKey, value]`; an empty reply (fewer than 2 entries)
means the wait timed out. -/
def Store.blpop (s : Store) (name : String) : Store × List String :=
  match s.pending with
  | [] => (s, [])
  | id :: rest => ({ s with pending := rest }, [idsKey name, id])

/-- The queue façade, mirroring `struct Queue` (the redis url is irrelevant
to the model; the connection's behaviour is an oracle where it can fail). -/
structure Queue where
  name : String

/-- `Queue::enqueue`: build the record via `Job::new`, `SET ... EX expire` it
under `{name}:{id}`, `RPUSH` the id onto `{name}:ids`, return the id. -/
def Queue.enqueue (q : Queue) (s : Store) (id : Option String) (freshId : String)
    (args : List String) (expire : Nat) : Store × String :=
  let job := Job.new id freshId args
  let s1 := s.setEx (recordKey q.name job.id) job expire
  let s2 := s1.rpush job.id
  (s2, job.id)

/-- `Queue::status`: load and deserialize the record, return its status.  A
missing (expired) key surfaces as a Redis error in the crate. -/
def Queue.status (q : Queue) (s : Store) (id : String) : Except ErrorKind Status :=
  match s.get (recordKey q.name id) with
  | none => Except.error ErrorKind.Redis
  | some (job, _) => Except.ok job.status

/-- `Queue::result`: FINISHED yields the stored optional result; any other
status yields the matching job error. -/
def Queue.result (q : Queue) (s : Store) (id : String) :
    Except ErrorKind (Option String) :=
  match s.get (recordKey q.name id) with
  | none => Except.error ErrorKind.Redis
  | some (job, _) =>
    match job.status with
    | Status.FINISHED r => Except.ok r
    | Status.QUEUED => Except.error ErrorKind.JobQueued
    | Status.FAILED m b => Except.error (ErrorKind.JobFailed m b)
    | Status.LOST => Except.error ErrorKind.JobLost
    | Status.RUNNING _ => Except.error ErrorKind.JobRunning

/-- `Queue::drop`: `DEL {name}:ids`; records are untouched. -/
def Queue.drop (s : Store) : Store :=
  { s with pending := [] }

/-- Outcome the handler thread sends on the channel: `Ok(o)` becomes
`FINISHED(o)`, `Err(err)` becomes `FAILED { message, backtrace }`. -/
inductive HandlerResult
  | ok (payload : Option String)
  | err (message : String) (backtrace : String)
  deriving DecidableEq, Repr

/-- A handler: the `fun` argument of `Queue::work`. -/
def Handler : Type := String → List String → HandlerResult

/-- The status the spawned thread sends for a handler result
(src/lib.rs lines 273-282). -/
def handlerStatus : HandlerResult → Status
  | HandlerResult.ok o => Status.FINISHED o
  | HandlerResult.err m b => Status.FAILED m b

/-- What `rx.try_recv().unwrap_or(Status::RUNNING(None))` yields at poll
index `i`: the handler's outcome once the message has arrived (at poll index
`arrival`), `RUNNING(None)` while the channel is still empty.  `arrival =
none` models a handler that never signals completion. -/
def recvAt (outcome : Status) (arrival : Option Nat) (i : Nat) : Status :=
  match arrival with
  | none => Status.RUNNING none
  | some a => if a ≤ i then outcome else Status.RUNNING none

/-- The `for _ in 0..(timeout * freq)` supervision loop (src/lib.rs lines
284-292): each pass stores the received status into `job.status` and breaks
unless it is `RUNNING(_)`.  Returns the number of polls performed and the
final `job.status`; `st` is the value of `job.status` entering the loop. -/
def pollLoop (recv : Nat → Status) : Nat → Nat → Status → Nat × Status
  | 0, _, st => (0, st)
  | fuel + 1, i, _ =>
    let st := recv i
    match st with
    | Status.RUNNING p =>
      let r := pollLoop recv fuel (i + 1) (Status.RUNNING p)
      (r.1 + 1, r.2)
    | _ => (1, st)

/-- Supervision (src/lib.rs lines 284-298): run the poll loop with budget
`timeout * freq` starting from `job.status = RUNNING(None)`, then reclassify
a still-RUNNING status as LOST.  Returns (number of polls, final status). -/
def supervise (budget : Nat) (recv : Nat → Status) : Nat × Status :=
  let r := pollLoop recv budget 0 (Status.RUNNING none)
  match r.2 with
  | Status.RUNNING _ => (r.1, Status.LOST)
  | st => (r.1, st)

/-- Configuration of `Queue::work` after defaulting. -/
structure WorkConfig where
  wait : Nat := 10
  timeout : Nat := 30
  freq : Nat := 1
  expire : Nat := 30
  fall : Bool := true
  infinite : Bool := true

/-- External behaviour for one iteration: whether each Redis call fails, and
the poll index at which the handler's channel message becomes available. -/
structure Oracle where
  blpopErr : Bool := false
  getErr : Bool := false
  setRunningErr : Bool := false
  setFinalErr : Bool := false
  arrival : Option Nat := none

/-- One write `SET key job EX ttl` performed by the worker. -/
structure StoreWrite where
  key : String
  job : Job
  ttl : Nat
  deriving DecidableEq, Repr

/-- How one pass of the body of the `loop` in `Queue::work` ends. -/
inductive IterExit
  /-- A `?` propagated the error: `work` returns `Err(e)`. -/
  | abort (e : ErrorKind)
  /-- `fall && job.status == LOST` held and the process panicked with "LOST". -/
  | panicLost
  /-- `break`: `work` returns `Ok(())`. -/
  | stop
  /-- `continue` (or falling through with `infinite`): next iteration. -/
  | next
  deriving DecidableEq, Repr

/-- The claimed part of the loop body (src/lib.rs lines 266-307): transition
the loaded record `job0` to RUNNING and persist with ttl `timeout + expire`,
spawn the handler with the popped `id` and the record's args, supervise, then
persist the final record with ttl `expire`; panic on a lost job when `fall`,
else break or continue per `infinite`. -/
def runClaimed (cfg : WorkConfig) (q : Queue) (fn : Handler) (or : Oracle)
    (id : String) (job0 : Job) (s : Store) : IterExit × Store × List StoreWrite :=
  let key := recordKey q.name id
  let job1 := { job0 with status := Status.RUNNING none }
  if or.setRunningErr then (IterExit.abort ErrorKind.Redis, s, [])
  else
    let s1 := s.setEx key job1 (cfg.timeout + cfg.expire)
    let w1 : StoreWrite := ⟨key, job1, cfg.timeout + cfg.expire⟩
    let outcome := handlerStatus (fn id job1.args)
    let fin := (supervise (cfg.timeout * cfg.freq) (recvAt outcome or.arrival)).2
    let job2 := { job1 with status := fin }
    if or.setFinalErr then (IterExit.abort ErrorKind.Redis, s1, [w1])
    else
      let s2 := s1.setEx key job2 cfg.expire
      let w2 : StoreWrite := ⟨key, job2, cfg.expire⟩
      if cfg.fall && job2.status == Status.LOST then
        (IterExit.panicLost, s2, [w1, w2])
      else if !cfg.infinite then (IterExit.stop, s2, [w1, w2])
      else (IterExit.next, s2, [w1, w2])

/-- One pass of the body of the `loop` in `Queue::work` (src/lib.rs lines
243-308), returning how the pass ends, the store afterwards, and the record
writes it performed. -/
def workIteration (cfg : WorkConfig) (q : Queue) (fn : Handler) (or : Oracle)
    (s : Store) : IterExit × Store × List StoreWrite :=
  if or.blpopErr then (IterExit.abort ErrorKind.Redis, s, [])
  else
    let br := s.blpop q.name
    let s := br.1
    let ids := br.2
    if ids.length < 2 then
      (if cfg.infinite then IterExit.next else IterExit.stop, s, [])
    else
      let id := ids.getD 1 ""
      match (if or.getErr then none else s.get (recordKey q.name id)) with
      | none => (if cfg.infinite then IterExit.next else IterExit.stop, s, [])
      | some (job0, _) => runClaimed cfg q fn or id job0 s

/-- How `Queue::work` itself ends. -/
inductive LoopExit
  /-- `work` returned `Ok(())`. -/
  | ok
  /-- `work` returned `Err(e)`. -/
  | err (e : ErrorKind)
  /-- The process panicked ("LOST"). -/
  | panicked
  /-- Fuel ran out while the loop was still going. -/
  | spin
  deriving DecidableEq, Repr

/-- The `loop` in `Queue::work`, fuel-indexed; `ors i` is the oracle of the
i-th remaining iteration. -/
def workLoop (cfg : WorkConfig) (q : Queue) (fn : Handler) :
    Nat → (Nat → Oracle) → Store → LoopExit × Store
  | 0, _, s => (LoopExit.spin, s)
  | fuel + 1, ors, s =>
    match workIteration cfg q fn (ors 0) s with
    | (IterExit.abort e, s', _) => (LoopExit.err e, s')
    | (IterExit.panicLost, s', _) => (LoopExit.panicked, s')
    | (IterExit.stop, s', _) => (LoopExit.ok, s')
    | (IterExit.next, s', _) => workLoop cfg q fn fuel (fun i => ors (i + 1)) s'

/-- Sample queue used to evaluate the model at concrete inputs. -/
def sampleQueue : Queue := ⟨"rjq"⟩

/-- Sample enqueued record. -/
def sampleJob : Job := ⟨"job1", Status.QUEUED, ["a", "b"]⟩

/-- Sample store holding `sampleJob` with one pending id. -/
def sampleStore : Store := ⟨[(recordKey "rjq" "job1", sampleJob, 30)], ["job1"]⟩

/-- Handler that succeeds with payload "done". -/
def handlerDone : Handler := fun _ _ => HandlerResult.ok (some "done")

/-- Handler that fails with message "boom" and backtrace "trace". -/
def handlerBoom : Handler := fun _ _ => HandlerResult.err "boom" "trace"

/-- Store with no records and no pending ids. -/
def emptyStore : Store := ⟨[], []⟩

/-- Store with one unrelated pending id and no records. -/
def otherStore : Store := ⟨[], ["other"]⟩

/-- A record already in the FAILED state. -/
def failedJob : Job := ⟨"j2", Status.FAILED "m" "bt", []⟩

/-- Store holding `failedJob`. -/
def failedStore : Store := ⟨[(recordKey "rjq" "j2", failedJob, 5)], []⟩

/-- A channel view that always reports RUNNING with a payload. -/
def alwaysRunningRecv : Nat → Status := fun _ => Status.RUNNING (some "x")

/-- All-default oracles for every loop iteration. -/
def defaultOracles : Nat → Oracle := fun _ => { }

/-- Small supervision budget configuration (`timeout * freq = 4`). -/
def sampleCfg : WorkConfig := { timeout := 2, freq := 2 }

/-- The RUNNING write of the default-config iteration on `sampleStore`. -/
def sampleRunningWrite : StoreWrite :=
  ⟨recordKey "rjq" "job1", ⟨"job1", Status.RUNNING none, ["a", "b"]⟩, 60⟩

/-- The LOST terminal write of the default-config iteration on `sampleStore`. -/
def sampleLostWrite : StoreWrite :=
  ⟨recordKey "rjq" "job1", ⟨"job1", Status.LOST, ["a", "b"]⟩, 30⟩

/-- Reading a key just written with `setEx` yields the new record and ttl. -/
theorem Store.get_setEx_self (s : Store) (k : String) (j : Job) (t : Nat) :
    (s.setEx k j t).get k = some (j, t) := by
  simp [Store.get, Store.setEx, List.find?]

/-- `rpush` does not change any record. -/
theorem Store.get_rpush (s : Store) (id k : String) :
    (s.rpush id).get k = s.get k := rfl

/-- Records are independent of the pending list. -/
theorem Store.get_pending_irrel (s : Store) (p : List String) (k : String) :
    Store.get { s with pending := p } k = s.get k := rfl

/-- A status is RUNNING with some payload iff `isRunning` holds. -/
theorem Status.isRunning_iff (st : Status) :
    st.isRunning = true ↔ ∃ p, st = Status.RUNNING p := by
  cases st <;> simp [Status.isRunning]

/-- The status the handler thread sends is always terminal. -/
theorem handlerStatus_terminal (r : HandlerResult) :
    (handlerStatus r).isTerminal = true := by
  cases r <;> simp [handlerStatus, Status.isTerminal]

/-- Each poll the channel yields either the quiet RUNNING(None) or the
handler's outcome. -/
theorem recvAt_cases (outcome : Status) (arrival : Option Nat) (i : Nat) :
    recvAt outcome arrival i = Status.RUNNING none
      ∨ recvAt outcome arrival i = outcome := by
  cases arrival with
  | none => left; rfl
  | some a =>
    by_cases h : a ≤ i
    · right; simp [recvAt, h]
    · left; simp [recvAt, h]

/-- Before the message arrives the channel yields RUNNING(None). -/
theorem recvAt_early (outcome : Status) (a i : Nat) (h : i < a) :
    recvAt outcome (some a) i = Status.RUNNING none := by
  simp [recvAt, Nat.not_le.mpr h]

/-- Once the message has arrived the channel yields the outcome. -/
theorem recvAt_late (outcome : Status) (a i : Nat) (h : a ≤ i) :
    recvAt outcome (some a) i = outcome := by
  simp [recvAt, h]

/-- The poll loop performs at most `fuel` polls. -/
theorem pollLoop_fst_le (recv : Nat → Status) :
    ∀ (fuel i : Nat) (st : Status), (pollLoop recv fuel i st).1 ≤ fuel := by
  intro fuel
  induction fuel with
  | zero => intro i st; simp [pollLoop]
  | succ n ih =>
    intro i st
    cases h : recv i <;> simp [pollLoop, h]
    exact ih (i + 1) _

/-- The poll loop's final status is the initial one or some received one. -/
theorem pollLoop_snd_cases (recv : Nat → Status) :
    ∀ (fuel i : Nat) (st : Status),
      (pollLoop recv fuel i st).2 = st ∨ ∃ j, (pollLoop recv fuel i st).2 = recv j := by
  intro fuel
  induction fuel with
  | zero => intro i st; left; rfl
  | succ n ih =>
    intro i st
    cases h : recv i with
    | RUNNING p =>
      rcases ih (i + 1) (Status.RUNNING p) with h2 | ⟨j, h2⟩
      · right; exact ⟨i, by simp [pollLoop, h, h2]⟩
      · right; exact ⟨j, by simp [pollLoop, h, h2]⟩
    | QUEUED => right; exact ⟨i, by simp [pollLoop, h]⟩
    | LOST => right; exact ⟨i, by simp [pollLoop, h]⟩
    | FINISHED r => right; exact ⟨i, by simp [pollLoop, h]⟩
    | FAILED m b => right; exact ⟨i, by simp [pollLoop, h]⟩

/-- If every poll in the window yields a RUNNING status (payload irrelevant)
and the loop starts RUNNING, it ends RUNNING. -/
theorem pollLoop_snd_running (recv : Nat → Status) :
    ∀ (fuel i : Nat) (st : Status),
      (∀ j, j < fuel → (recv (i + j)).isRunning = true) → st.isRunning = true →
      ((pollLoop recv fuel i st).2).isRunning = true := by
  intro fuel
  induction fuel with
  | zero => intro i st _ hst; simpa [pollLoop] using hst
  | succ n ih =>
    intro i st hall hst
    have h0 : (recv i).isRunning = true := by
      have := hall 0 (Nat.succ_pos n)
      simpa using this
    rcases (Status.isRunning_iff (recv i)).mp h0 with ⟨p, hp⟩
    have hrec : ∀ j, j < n → (recv (i + 1 + j)).isRunning = true := by
      intro j hj
      have := hall (j + 1) (Nat.succ_lt_succ hj)
      rwa [show i + (j + 1) = i + 1 + j by omega] at this
    have := ih (i + 1) (Status.RUNNING p) hrec (by simp [Status.isRunning])
    simpa [pollLoop, hp] using this

/-- If the first non-RUNNING reception is at offset `a < fuel`, the loop
performs exactly `a + 1` polls and returns that reception. -/
theorem pollLoop_break (recv : Nat → Status) :
    ∀ (a fuel i : Nat) (st : Status), a < fuel →
      (∀ j, j < a → (recv (i + j)).isRunning = true) →
      (recv (i + a)).isRunning = false →
      pollLoop recv fuel i st = (a + 1, recv (i + a)) := by
  intro a
  induction a with
  | zero =>
    intro fuel i st hf _ hb
    cases fuel with
    | zero => omega
    | succ n =>
      rw [Nat.add_zero] at hb
      cases h : recv i <;> simp_all [pollLoop, Status.isRunning]
  | succ a ih =>
    intro fuel i st hf hall hb
    cases fuel with
    | zero => omega
    | succ n =>
      have h0 : (recv i).isRunning = true := by
        have := hall 0 (Nat.succ_pos a)
        simpa using this
      rcases (Status.isRunning_iff (recv i)).mp h0 with ⟨p, hp⟩
      have hall2 : ∀ j, j < a → (recv (i + 1 + j)).isRunning = true := by
        intro j hj
        have := hall (j + 1) (Nat.succ_lt_succ hj)
        rwa [show i + (j + 1) = i + 1 + j by omega] at this
      have hb2 : (recv (i + 1 + a)).isRunning = false := by
        rwa [show i + (a + 1) = i + 1 + a by omega] at hb
      have := ih n (i + 1) (Status.RUNNING p) (Nat.lt_of_succ_lt_succ hf) hall2 hb2
      rw [show i + 1 + a = i + (a + 1) by omega] at this
      simp [pollLoop, hp, this]

/-- Supervision performs at most `budget` polls. -/
theorem supervise_fst_le (budget : Nat) (recv : Nat → Status) :
    (supervise budget recv).1 ≤ budget := by
  have h := pollLoop_fst_le recv budget 0 (Status.RUNNING none)
  simp only [supervise]
  split <;> simpa

/-- If every poll in the budget yields a RUNNING status (payload ignored),
supervision reclassifies the job as LOST. -/
theorem supervise_lost (budget : Nat) (recv : Nat → Status)
    (h : ∀ j, j < budget → (recv j).isRunning = true) :
    (supervise budget recv).2 = Status.LOST := by
  have hrun := pollLoop_snd_running recv budget 0 (Status.RUNNING none)
    (by intro j hj; simpa using h j hj) (by simp [Status.isRunning])
  simp only [supervise]
  rcases (Status.isRunning_iff _).mp hrun with ⟨p, hp⟩
  rw [hp]

/-- If the handler's non-RUNNING outcome arrives at poll index `a` within the
budget, supervision stops after exactly `a + 1` polls with that outcome. -/
theorem supervise_break (budget a : Nat) (outcome : Status)
    (ha : a < budget) (hout : outcome.isRunning = false) :
    supervise budget (recvAt outcome (some a)) = (a + 1, outcome) := by
  have hb : pollLoop (recvAt outcome (some a)) budget 0 (Status.RUNNING none)
      = (a + 1, recvAt outcome (some a) (0 + a)) := by
    refine pollLoop_break _ a budget 0 (Status.RUNNING none) ha ?_ ?_
    · intro j hj
      rw [recvAt_early outcome a (0 + j) (by omega)]
      simp [Status.isRunning]
    · rw [recvAt_late outcome a (0 + a) (by omega)]
      exact hout
  rw [recvAt_late outcome a (0 + a) (by omega)] at hb
  simp only [supervise, hb]
  cases outcome <;> simp_all [Status.isRunning]

/-- The supervision result is LOST or a non-RUNNING received status. -/
theorem supervise_snd_cases (budget : Nat) (recv : Nat → Status) :
    (supervise budget recv).2 = Status.LOST
      ∨ ∃ j, (supervise budget recv).2 = recv j ∧ (recv j).isRunning = false := by
  simp only [supervise]
  rcases pollLoop_snd_cases recv budget 0 (Status.RUNNING none) with h | ⟨j, h⟩
  · rw [h]; left; rfl
  · rw [h]
    cases hc : recv j with
    | RUNNING p => left; rfl
    | QUEUED => right; exact ⟨j, by simp [hc, Status.isRunning]⟩
    | LOST => right; exact ⟨j, by simp [hc, Status.isRunning]⟩
    | FINISHED r => right; exact ⟨j, by simp [hc, Status.isRunning]⟩
    | FAILED m b => right; exact ⟨j, by simp [hc, Status.isRunning]⟩

/-- Supervising the handler channel always ends in a terminal status. -/
theorem supervise_recvAt_terminal (budget : Nat) (r : HandlerResult)
    (arrival : Option Nat) :
    ((supervise budget (recvAt (handlerStatus r) arrival)).2).isTerminal = true := by
  rcases supervise_snd_cases budget (recvAt (handlerStatus r) arrival) with h | ⟨j, h, hnr⟩
  · rw [h]; rfl
  · rcases recvAt_cases (handlerStatus r) arrival j with hc | hc
    · rw [hc] at hnr; simp [Status.isRunning] at hnr
    · rw [h, hc]; exact handlerStatus_terminal r

/-- A message that arrives only after the poll budget is exhausted is never
observed: supervision classifies the job LOST. -/
theorem supervise_late_lost (budget a : Nat) (outcome : Status)
    (ha : budget ≤ a) :
    (supervise budget (recvAt outcome (some a))).2 = Status.LOST := by
  refine supervise_lost budget _ ?_
  intro j hj
  rw [recvAt_early outcome a j (by omega)]
  simp [Status.isRunning]

/-- A handler that never signals completion is classified LOST. -/
theorem supervise_none_lost (budget : Nat) (outcome : Status) :
    (supervise budget (recvAt outcome none)).2 = Status.LOST := by
  refine supervise_lost budget _ ?_
  intro j _
  simp [recvAt, Status.isRunning]

/-- A zero poll budget classifies the job LOST whatever the channel holds. -/
theorem supervise_zero_lost (recv : Nat → Status) :
    (supervise 0 recv).2 = Status.LOST := by
  refine supervise_lost 0 recv ?_
  intro j hj
  omega

/-- A BLPOP error propagates: the iteration aborts with a Redis error. -/
theorem workIteration_blpopErr (cfg : WorkConfig) (q : Queue) (fn : Handler)
    (or : Oracle) (s : Store) (h : or.blpopErr = true) :
    workIteration cfg q fn or s = (IterExit.abort ErrorKind.Redis, s, []) := by
  simp [workIteration, h]

/-- A claim timeout (empty pending list): continue per `infinite`. -/
theorem workIteration_claimTimeout (cfg : WorkConfig) (q : Queue) (fn : Handler)
    (or : Oracle) (s : Store) (hbl : or.blpopErr = false) (hp : s.pending = []) :
    workIteration cfg q fn or s
      = (if cfg.infinite then IterExit.next else IterExit.stop, s, []) := by
  simp [workIteration, Store.blpop, hbl, hp]

/-- A failed record load after a successful claim: continue per `infinite`. -/
theorem workIteration_loadFail (cfg : WorkConfig) (q : Queue) (fn : Handler)
    (or : Oracle) (s : Store) (id : String) (rest : List String)
    (hbl : or.blpopErr = false) (hp : s.pending = id :: rest)
    (hload : (if or.getErr then none else s.get (recordKey q.name id))
      = (none : Option (Job × Nat))) :
    workIteration cfg q fn or s
      = (if cfg.infinite then IterExit.next else IterExit.stop,
         { s with pending := rest }, []) := by
  simp only [workIteration, hbl, Bool.false_eq_true, if_false, Store.blpop, hp,
    List.length_cons, List.length_singleton, Store.get_pending_irrel]
  norm_num
  split
  · rfl
  · rename_i job0 t heq
    rw [heq] at hload
    cases hload

/-- A successful claim and load dispatches to `runClaimed` on the popped
store. -/
theorem workIteration_claimed (cfg : WorkConfig) (q : Queue) (fn : Handler)
    (or : Oracle) (s : Store) (id : String) (rest : List String) (job0 : Job)
    (t : Nat)
    (hbl : or.blpopErr = false) (hp : s.pending = id :: rest)
    (hge : or.getErr = false)
    (hrec : s.get (recordKey q.name id) = some (job0, t)) :
    workIteration cfg q fn or s
      = runClaimed cfg q fn or id job0 { s with pending := rest } := by
  simp [workIteration, Store.blpop, hbl, hp, hge, Store.get_pending_irrel, hrec]

/-- A failed RUNNING persist aborts the iteration with a Redis error. -/
theorem runClaimed_setRunningErr (cfg : WorkConfig) (q : Queue) (fn : Handler)
    (or : Oracle) (id : String) (job0 : Job) (s : Store)
    (h : or.setRunningErr = true) :
    runClaimed cfg q fn or id job0 s = (IterExit.abort ErrorKind.Redis, s, []) := by
  simp [runClaimed, h]

/-- A failed terminal persist aborts after the single RUNNING write. -/
theorem runClaimed_setFinalErr (cfg : WorkConfig) (q : Queue) (fn : Handler)
    (or : Oracle) (id : String) (job0 : Job) (s : Store)
    (h1 : or.setRunningErr = false) (h2 : or.setFinalErr = true) :
    runClaimed cfg q fn or id job0 s
      = (IterExit.abort ErrorKind.Redis,
         s.setEx (recordKey q.name id) { job0 with status := Status.RUNNING none }
           (cfg.timeout + cfg.expire),
         [⟨recordKey q.name id, { job0 with status := Status.RUNNING none },
           cfg.timeout + cfg.expire⟩]) := by
  simp [runClaimed, h1, h2]

/-- With both persists succeeding, the claimed path writes the RUNNING record
with ttl `timeout + expire`, then the supervised final record with ttl
`expire`, and exits by panicking on a lost job when `fall`, else per
`infinite`. -/
theorem runClaimed_ok (cfg : WorkConfig) (q : Queue) (fn : Handler)
    (or : Oracle) (id : String) (job0 : Job) (s : Store) (fin : Status)
    (h1 : or.setRunningErr = false) (h2 : or.setFinalErr = false)
    (hfin : (supervise (cfg.timeout * cfg.freq)
      (recvAt (handlerStatus (fn id job0.args)) or.arrival)).2 = fin) :
    runClaimed cfg q fn or id job0 s
      = (if cfg.fall && (fin == Status.LOST) then IterExit.panicLost
         else if !cfg.infinite then IterExit.stop else IterExit.next,
         (s.setEx (recordKey q.name id)
             { job0 with status := Status.RUNNING none } (cfg.timeout + cfg.expire)).setEx
           (recordKey q.name id) { job0 with status := fin } cfg.expire,
         [⟨recordKey q.name id, { job0 with status := Status.RUNNING none },
           cfg.timeout + cfg.expire⟩,
          ⟨recordKey q.name id, { job0 with status := fin }, cfg.expire⟩]) := by
  subst hfin
  simp [runClaimed, h1, h2]
  split
  · rfl
  · split <;> rfl

/-- Any iteration either performs no record write (claim error, claim
timeout, or load failure) or goes through the claimed path. -/
theorem workIteration_writes_cases (cfg : WorkConfig) (q : Queue) (fn : Handler)
    (or : Oracle) (s : Store) :
    (workIteration cfg q fn or s).2.2 = []
      ∨ ∃ id job0 s', workIteration cfg q fn or s
          = runClaimed cfg q fn or id job0 s' := by
  by_cases hbl : or.blpopErr = true
  · left; rw [workIteration_blpopErr cfg q fn or s hbl]
  · have hbl' : or.blpopErr = false := by simpa using hbl
    cases hp : s.pending with
    | nil => left; rw [workIteration_claimTimeout cfg q fn or s hbl' hp]
    | cons id rest =>
      by_cases hge : or.getErr = true
      · left
        rw [workIteration_loadFail cfg q fn or s id rest hbl' hp (by simp [hge])]
      · have hge' : or.getErr = false := by simpa using hge
        cases hrec : s.get (recordKey q.name id) with
        | none =>
          left
          rw [workIteration_loadFail cfg q fn or s id rest hbl' hp
            (by simp [hge', hrec])]
        | some jt =>
          right
          exact ⟨id, jt.1, { s with pending := rest },
            workIteration_claimed cfg q fn or s id rest jt.1 jt.2 hbl' hp hge'
              (by rw [hrec])⟩

/-- The claimed path writes nothing, only the RUNNING record, or the RUNNING
record followed by the supervised final record. -/
theorem runClaimed_writes_cases (cfg : WorkConfig) (q : Queue) (fn : Handler)
    (or : Oracle) (id : String) (job0 : Job) (s : Store) :
    (runClaimed cfg q fn or id job0 s).2.2 = []
    ∨ (runClaimed cfg q fn or id job0 s).2.2
        = [⟨recordKey q.name id, { job0 with status := Status.RUNNING none },
            cfg.timeout + cfg.expire⟩]
    ∨ (runClaimed cfg q fn or id job0 s).2.2
        = [⟨recordKey q.name id, { job0 with status := Status.RUNNING none },
            cfg.timeout + cfg.expire⟩,
           ⟨recordKey q.name id,
            { job0 with status := (supervise (cfg.timeout * cfg.freq)
                (recvAt (handlerStatus (fn id job0.args)) or.arrival)).2 },
            cfg.expire⟩] := by
  by_cases h1 : or.setRunningErr = true
  · left; rw [runClaimed_setRunningErr cfg q fn or id job0 s h1]
  · have h1' : or.setRunningErr = false := by simpa using h1
    by_cases h2 : or.setFinalErr = true
    · right; left; rw [runClaimed_setFinalErr cfg q fn or id job0 s h1' h2]
    · right; right
      rw [runClaimed_ok cfg q fn or id job0 s _ h1' (by simpa using h2) rfl]

/-- C1: during supervision the worker polls the completion signal at most
`timeout * freq` times; when a non-RUNNING outcome becomes available at poll
index `a` within the budget it stops right there after `a + 1` polls with
that outcome; and when every poll in the budget observes a RUNNING status —
whatever partial-result payload it carries — the status is reclassified as
LOST. -/
theorem claim1_supervision (cfg : WorkConfig) (a : Nat) (outcome : Status)
    (arrival : Option Nat) (recv : Nat → Status)
    (hout : outcome.isRunning = false)
    (ha : a < cfg.timeout * cfg.freq)
    (hrun : ∀ j, j < cfg.timeout * cfg.freq → (recv j).isRunning = true) :
    (supervise (cfg.timeout * cfg.freq) (recvAt outcome arrival)).1
        ≤ cfg.timeout * cfg.freq
    ∧ supervise (cfg.timeout * cfg.freq) (recvAt outcome (some a))
        = (a + 1, outcome)
    ∧ (supervise (cfg.timeout * cfg.freq) recv).2 = Status.LOST :=
  ⟨supervise_fst_le _ _, supervise_break _ a outcome ha hout,
   supervise_lost _ recv hrun⟩

/-- C1 witness at `timeout = 2`, `freq = 2`, an outcome arriving at poll 1,
and a channel view that always reports RUNNING with a payload. -/
theorem claim1_supervision_witness :
    (supervise (sampleCfg.timeout * sampleCfg.freq)
        (recvAt (Status.FINISHED none) (some 9))).1
        ≤ sampleCfg.timeout * sampleCfg.freq
    ∧ supervise (sampleCfg.timeout * sampleCfg.freq)
        (recvAt (Status.FINISHED none) (some 1)) = (1 + 1, Status.FINISHED none)
    ∧ (supervise (sampleCfg.timeout * sampleCfg.freq) alwaysRunningRecv).2
        = Status.LOST :=
  claim1_supervision sampleCfg 1 (Status.FINISHED none) (some 9)
    alwaysRunningRecv (by decide) (by decide) (by decide)

/-- C8: enqueue builds a QUEUED record whose id is the caller's when
supplied and the fresh uuid otherwise, stores it under `{name}:{id}` with
the caller's ttl, appends the id to the pending list and returns it, so the
status reads QUEUED and the id occurs exactly once in the pending list. -/
theorem claim8_enqueue (q : Queue) (s : Store) (idOpt : Option String)
    (freshId : String) (args : List String) (ttl : Nat)
    (hfresh : s.pending.count (idOpt.getD freshId) = 0) :
    (q.enqueue s idOpt freshId args ttl).2 = idOpt.getD freshId
    ∧ (q.enqueue s idOpt freshId args ttl).1.get
        (recordKey q.name (idOpt.getD freshId))
      = some (⟨idOpt.getD freshId, Status.QUEUED, args⟩, ttl)
    ∧ q.status (q.enqueue s idOpt freshId args ttl).1 (idOpt.getD freshId)
      = Except.ok Status.QUEUED
    ∧ (q.enqueue s idOpt freshId args ttl).1.pending
        = s.pending ++ [idOpt.getD freshId]
    ∧ ((q.enqueue s idOpt freshId args ttl).1.pending).count (idOpt.getD freshId)
        = 1 := by
  refine ⟨rfl, ?_, ?_, rfl, ?_⟩
  · rw [show (q.enqueue s idOpt freshId args ttl).1
        = (s.setEx (recordKey q.name (idOpt.getD freshId))
            ⟨idOpt.getD freshId, Status.QUEUED, args⟩ ttl).rpush (idOpt.getD freshId)
      from rfl]
    rw [Store.get_rpush, Store.get_setEx_self]
  · rw [show (q.enqueue s idOpt freshId args ttl).1
        = (s.setEx (recordKey q.name (idOpt.getD freshId))
            ⟨idOpt.getD freshId, Status.QUEUED, args⟩ ttl).rpush (idOpt.getD freshId)
      from rfl]
    rw [Queue.status, Store.get_rpush, Store.get_setEx_self]
  · rw [show (q.enqueue s idOpt freshId args ttl).1.pending
        = s.pending ++ [idOpt.getD freshId] from rfl]
    rw [List.count_append]
    simp [hfresh]

/-- C8 witness: enqueue without a caller id into a store whose pending list
does not contain the fresh id. -/
theorem claim8_enqueue_witness :
    (sampleQueue.enqueue otherStore none "u1" ["x"] 7).2 = "u1"
    ∧ (sampleQueue.enqueue otherStore none "u1" ["x"] 7).1.get
        (recordKey "rjq" "u1") = some (⟨"u1", Status.QUEUED, ["x"]⟩, 7)
    ∧ sampleQueue.status (sampleQueue.enqueue otherStore none "u1" ["x"] 7).1 "u1"
        = Except.ok Status.QUEUED
    ∧ (sampleQueue.enqueue otherStore none "u1" ["x"] 7).1.pending
        = ["other", "u1"]
    ∧ ((sampleQueue.enqueue otherStore none "u1" ["x"] 7).1.pending).count "u1"
        = 1 :=
  claim8_enqueue sampleQueue otherStore none "u1" ["x"] 7 (by decide)

/-- C9: `result` returns the stored optional result exactly on FINISHED and
otherwise fails with the job error matching the record's status. -/
theorem claim9_result_matches_status (q : Queue) (s : Store) (id : String)
    (job : Job) (t : Nat)
    (hrec : s.get (recordKey q.name id) = some (job, t)) :
    q.result s id = (match job.status with
      | Status.FINISHED r => Except.ok r
      | Status.QUEUED => Except.error ErrorKind.JobQueued
      | Status.FAILED m b => Except.error (ErrorKind.JobFailed m b)
      | Status.LOST => Except.error ErrorKind.JobLost
      | Status.RUNNING _ => Except.error ErrorKind.JobRunning) := by
  rw [Queue.result, hrec]

/-- C9 witness on a FAILED record. -/
theorem claim9_result_witness :
    sampleQueue.result failedStore "j2"
      = Except.error (ErrorKind.JobFailed "m" "bt") :=
  claim9_result_matches_status sampleQueue failedStore "j2" failedJob 5 (by decide)

/-- C2: a handler error observed within the poll budget does not abort the
loop: the iteration continues to the next claim, and the persisted record
makes `status` read FAILED with the handler's message and backtrace and
`result` fail with `JobFailed` carrying them. -/
theorem claim2_handler_error (cfg : WorkConfig) (q : Queue) (fn : Handler)
    (or : Oracle) (s : Store) (id : String) (rest : List String) (job0 : Job)
    (t : Nat) (m b : String) (a : Nat)
    (hbl : or.blpopErr = false) (hp : s.pending = id :: rest)
    (hge : or.getErr = false)
    (hrec : s.get (recordKey q.name id) = some (job0, t))
    (hsr : or.setRunningErr = false) (hsf : or.setFinalErr = false)
    (hfn : fn id job0.args = HandlerResult.err m b)
    (harr : or.arrival = some a) (ha : a < cfg.timeout * cfg.freq)
    (hinf : cfg.infinite = true) :
    (workIteration cfg q fn or s).1 = IterExit.next
    ∧ q.status (workIteration cfg q fn or s).2.1 id
        = Except.ok (Status.FAILED m b)
    ∧ q.result (workIteration cfg q fn or s).2.1 id
        = Except.error (ErrorKind.JobFailed m b) := by
  have hfin : (supervise (cfg.timeout * cfg.freq)
      (recvAt (handlerStatus (fn id job0.args)) or.arrival)).2
      = Status.FAILED m b := by
    rw [hfn, harr]
    have := supervise_break (cfg.timeout * cfg.freq) a (Status.FAILED m b) ha
      (by simp [Status.isRunning])
    simp [handlerStatus, this]
  rw [workIteration_claimed cfg q fn or s id rest job0 t hbl hp hge hrec,
      runClaimed_ok cfg q fn or id job0 _ (Status.FAILED m b) hsr hsf hfin]
  refine ⟨by simp [hinf], ?_, ?_⟩
  · simp [Queue.status, Store.get, Store.setEx, List.find?]
  · simp [Queue.result, Store.get, Store.setEx, List.find?]

/-- C2 witness: the failing handler observed at poll 0 under the default
configuration. -/
theorem claim2_handler_error_witness :
    (workIteration { } sampleQueue handlerBoom { arrival := some 0 }
        sampleStore).1 = IterExit.next
    ∧ sampleQueue.status
        (workIteration { } sampleQueue handlerBoom { arrival := some 0 }
          sampleStore).2.1 "job1" = Except.ok (Status.FAILED "boom" "trace")
    ∧ sampleQueue.result
        (workIteration { } sampleQueue handlerBoom { arrival := some 0 }
          sampleStore).2.1 "job1"
        = Except.error (ErrorKind.JobFailed "boom" "trace") :=
  claim2_handler_error { } sampleQueue handlerBoom { arrival := some 0 }
    sampleStore "job1" [] sampleJob 30 "boom" "trace" 0 rfl rfl rfl (by decide)
    rfl rfl rfl rfl (by decide) rfl

/-- C3 counterexample: with a job going LOST under `fall = true`, `work`
does not return a distinguished fatal error value — the model of
`panic!("LOST")` fires instead, i.e. the loop's entry point ends in a panic
(`LoopExit.panicked`), not in `LoopExit.err`. -/
theorem claim3_counterexample :
    (workLoop { } sampleQueue handlerDone 1 defaultOracles sampleStore).1
      = LoopExit.panicked := by decide

/-- C3 amended: when the supervised job is classified LOST and `fall` is
true, the iteration (and hence `work`) terminates by panicking with "LOST"
— a process abort, not an error value returned from `work` — after having
persisted the LOST record. -/
theorem claim3_lost_panics (cfg : WorkConfig) (q : Queue) (fn : Handler)
    (or : Oracle) (s : Store) (id : String) (rest : List String) (job0 : Job)
    (t : Nat)
    (hbl : or.blpopErr = false) (hp : s.pending = id :: rest)
    (hge : or.getErr = false)
    (hrec : s.get (recordKey q.name id) = some (job0, t))
    (hsr : or.setRunningErr = false) (hsf : or.setFinalErr = false)
    (harr : or.arrival = none) (hfall : cfg.fall = true) :
    (workIteration cfg q fn or s).1 = IterExit.panicLost
    ∧ q.status (workIteration cfg q fn or s).2.1 id = Except.ok Status.LOST := by
  have hfin : (supervise (cfg.timeout * cfg.freq)
      (recvAt (handlerStatus (fn id job0.args)) or.arrival)).2 = Status.LOST := by
    rw [harr]; exact supervise_none_lost _ _
  rw [workIteration_claimed cfg q fn or s id rest job0 t hbl hp hge hrec,
      runClaimed_ok cfg q fn or id job0 _ Status.LOST hsr hsf hfin]
  refine ⟨by simp [hfall], ?_⟩
  simp [Queue.status, Store.get, Store.setEx, List.find?]

/-- C3 amended witness: a handler that never signals completion under the
default configuration. -/
theorem claim3_lost_panics_witness :
    (workIteration { } sampleQueue handlerDone { } sampleStore).1
      = IterExit.panicLost
    ∧ sampleQueue.status
        (workIteration { } sampleQueue handlerDone { } sampleStore).2.1 "job1"
      = Except.ok Status.LOST :=
  claim3_lost_panics { } sampleQueue handlerDone { } sampleStore "job1" []
    sampleJob 30 rfl rfl rfl (by decide) rfl rfl rfl rfl

/-- C10: with `timeout = 0` or `freq = 0` the poll budget is zero, so a
claimed job that reaches execution is persisted as LOST no matter how fast
its handler completes. -/
theorem claim10_zero_budget_lost (cfg : WorkConfig) (q : Queue) (fn : Handler)
    (or : Oracle) (s : Store) (id : String) (rest : List String) (job0 : Job)
    (t : Nat)
    (hbl : or.blpopErr = false) (hp : s.pending = id :: rest)
    (hge : or.getErr = false)
    (hrec : s.get (recordKey q.name id) = some (job0, t))
    (hsr : or.setRunningErr = false) (hsf : or.setFinalErr = false)
    (hzero : cfg.timeout = 0 ∨ cfg.freq = 0) :
    q.status (workIteration cfg q fn or s).2.1 id = Except.ok Status.LOST
    ∧ (workIteration cfg q fn or s).2.2.get? 1
        = some ⟨recordKey q.name id, { job0 with status := Status.LOST },
            cfg.expire⟩ := by
  have hb : cfg.timeout * cfg.freq = 0 := by
    rcases hzero with h | h <;> simp [h]
  have hfin : (supervise (cfg.timeout * cfg.freq)
      (recvAt (handlerStatus (fn id job0.args)) or.arrival)).2 = Status.LOST := by
    rw [hb]; exact supervise_zero_lost _
  rw [workIteration_claimed cfg q fn or s id rest job0 t hbl hp hge hrec,
      runClaimed_ok cfg q fn or id job0 _ Status.LOST hsr hsf hfin]
  constructor
  · simp [Queue.status, Store.get, Store.setEx, List.find?]
  · rfl

/-- C10 witness: `timeout = 0` with a handler outcome already available at
poll 0 — still persisted LOST. -/
theorem claim10_zero_budget_lost_witness :
    sampleQueue.status
        (workIteration { timeout := 0 } sampleQueue handlerDone
          { arrival := some 0 } sampleStore).2.1 "job1" = Except.ok Status.LOST
    ∧ (workIteration { timeout := 0 } sampleQueue handlerDone
        { arrival := some 0 } sampleStore).2.2.get? 1
      = some ⟨recordKey "rjq" "job1", ⟨"job1", Status.LOST, ["a", "b"]⟩, 30⟩ :=
  claim10_zero_budget_lost { timeout := 0 } sampleQueue handlerDone
    { arrival := some 0 } sampleStore "job1" [] sampleJob 30 rfl rfl rfl
    (by decide) rfl rfl (Or.inl rfl)

/-- First element of a two-element list. -/
theorem get?_pair_zero {α : Type} (a b : α) : [a, b].get? 0 = some a := rfl

/-- Second element of a two-element list. -/
theorem get?_pair_one {α : Type} (a b : α) : [a, b].get? 1 = some b := rfl

/-- C4: every record write sets a ttl — enqueue uses the caller's ttl, the
claimed RUNNING write uses `timeout + expire`, and the terminal write uses
`expire` only (the timeout budget is not re-added). -/
theorem claim4_ttl (q : Queue) (s : Store) (idOpt : Option String)
    (freshId : String) (args : List String) (ttl : Nat) (cfg : WorkConfig)
    (fn : Handler) (or : Oracle) (s2 : Store) (w0 w1 : StoreWrite)
    (h0 : (workIteration cfg q fn or s2).2.2.get? 0 = some w0)
    (h1 : (workIteration cfg q fn or s2).2.2.get? 1 = some w1) :
    ((q.enqueue s idOpt freshId args ttl).1.get
        (recordKey q.name (q.enqueue s idOpt freshId args ttl).2)).map Prod.snd
      = some ttl
    ∧ w0.ttl = cfg.timeout + cfg.expire
    ∧ w0.job.status = Status.RUNNING none
    ∧ w1.ttl = cfg.expire := by
  have henq : ((q.enqueue s idOpt freshId args ttl).1.get
      (recordKey q.name (q.enqueue s idOpt freshId args ttl).2)).map Prod.snd
      = some ttl := by
    rw [show (q.enqueue s idOpt freshId args ttl).1
        = (s.setEx (recordKey q.name (idOpt.getD freshId))
            ⟨idOpt.getD freshId, Status.QUEUED, args⟩ ttl).rpush (idOpt.getD freshId)
      from rfl]
    rw [show (q.enqueue s idOpt freshId args ttl).2 = idOpt.getD freshId from rfl]
    rw [Store.get_rpush, Store.get_setEx_self]
    rfl
  rcases workIteration_writes_cases cfg q fn or s2 with hnil | ⟨id, job0, s', heq⟩
  · rw [hnil] at h0
    simp at h0
  · rw [heq] at h0 h1
    rcases runClaimed_writes_cases cfg q fn or id job0 s' with hw | hw | hw
    · rw [hw] at h0
      simp at h0
    · rw [hw] at h1
      simp at h1
    · rw [hw, get?_pair_zero] at h0
      rw [hw, get?_pair_one] at h1
      have e0 := Option.some.inj h0
      have e1 := Option.some.inj h1
      subst e0
      subst e1
      exact ⟨henq, rfl, rfl, rfl⟩

/-- C4 witness: an enqueue with ttl 7, and the two writes of a default-config
iteration that loses the job. -/
theorem claim4_ttl_witness :
    ((sampleQueue.enqueue otherStore none "u1" ["x"] 7).1.get
        (recordKey "rjq" (sampleQueue.enqueue otherStore none "u1" ["x"] 7).2)).map
        Prod.snd = some 7
    ∧ sampleRunningWrite.ttl = 60
    ∧ sampleRunningWrite.job.status = Status.RUNNING none
    ∧ sampleLostWrite.ttl = 30 :=
  claim4_ttl sampleQueue otherStore none "u1" ["x"] 7 { } handlerDone { }
    sampleStore sampleRunningWrite sampleLostWrite (by decide) (by decide)

/-- C5: whenever an iteration performs its second record write, that write
is the last one (exactly two writes happen), carries a terminal status, and
— if the handler's outcome only becomes available at a poll index past the
budget — carries LOST rather than the late outcome. -/
theorem claim5_terminal_write (cfg : WorkConfig) (q : Queue) (fn : Handler)
    (or : Oracle) (s : Store) (w : StoreWrite)
    (hw : (workIteration cfg q fn or s).2.2.get? 1 = some w) :
    (workIteration cfg q fn or s).2.2.length = 2
    ∧ w.job.status.isTerminal = true
    ∧ (∀ a, or.arrival = some a → cfg.timeout * cfg.freq ≤ a →
        w.job.status = Status.LOST) := by
  rcases workIteration_writes_cases cfg q fn or s with hnil | ⟨id, job0, s', heq⟩
  · rw [hnil] at hw
    simp at hw
  · rw [heq] at hw ⊢
    rcases runClaimed_writes_cases cfg q fn or id job0 s' with h | h | h
    · rw [h] at hw
      simp at hw
    · rw [h] at hw
      simp at hw
    · rw [h] at hw ⊢
      rw [get?_pair_one] at hw
      have e := Option.some.inj hw
      subst e
      refine ⟨rfl, ?_, ?_⟩
      · exact supervise_recvAt_terminal (cfg.timeout * cfg.freq)
          (fn id job0.args) or.arrival
      · intro a harr hle
        show (supervise (cfg.timeout * cfg.freq)
          (recvAt (handlerStatus (fn id job0.args)) or.arrival)).2 = Status.LOST
        rw [harr]
        exact supervise_late_lost _ a _ hle

/-- C5 witness: handler outcome arriving at poll 99, after the default
budget of 30 polls. -/
theorem claim5_terminal_write_witness :
    (workIteration { } sampleQueue handlerDone { arrival := some 99 }
        sampleStore).2.2.length = 2
    ∧ sampleLostWrite.job.status.isTerminal = true
    ∧ sampleLostWrite.job.status = Status.LOST :=
  have h := claim5_terminal_write { } sampleQueue handlerDone
    { arrival := some 99 } sampleStore sampleLostWrite (by decide)
  ⟨h.1, h.2.1, h.2.2 99 rfl (by decide)⟩

/-- C6 counterexample: a store error during the record load (after a
successful claim) does *not* abort the iteration and loop — with the default
`runForever` the iteration just continues to the next claim, contradicting
the claim that only a claim-timeout is tolerated. -/
theorem claim6_counterexample :
    (workIteration { } sampleQueue handlerDone { getErr := true }
        sampleStore).1 = IterExit.next := by decide

/-- C6 amended: inside the worker loop a store error on the claim (BLPOP)
aborts the iteration and loop with a propagated Redis error, while both a
claim-timeout and a store error on the record load are handled silently —
continue when `runForever`, stop otherwise. -/
theorem claim6_store_error_policy (cfg : WorkConfig) (q : Queue) (fn : Handler)
    (orB orT orL : Oracle) (sB sT sL : Store) (id : String) (rest : List String)
    (hB : orB.blpopErr = true)
    (hTbl : orT.blpopErr = false) (hTp : sT.pending = [])
    (hLbl : orL.blpopErr = false) (hLp : sL.pending = id :: rest)
    (hLg : orL.getErr = true) :
    (workIteration cfg q fn orB sB).1 = IterExit.abort ErrorKind.Redis
    ∧ (workIteration cfg q fn orT sT).1
        = (if cfg.infinite then IterExit.next else IterExit.stop)
    ∧ (workIteration cfg q fn orL sL).1
        = (if cfg.infinite then IterExit.next else IterExit.stop) := by
  refine ⟨?_, ?_, ?_⟩
  · rw [workIteration_blpopErr cfg q fn orB sB hB]
  · rw [workIteration_claimTimeout cfg q fn orT sT hTbl hTp]
  · rw [workIteration_loadFail cfg q fn orL sL id rest hLbl hLp (by simp [hLg])]

/-- C6 amended witness: a BLPOP error, a claim timeout, and a load error
under the default configuration. -/
theorem claim6_store_error_policy_witness :
    (workIteration { } sampleQueue handlerDone { blpopErr := true }
        sampleStore).1 = IterExit.abort ErrorKind.Redis
    ∧ (workIteration { } sampleQueue handlerDone { } emptyStore).1
        = IterExit.next
    ∧ (workIteration { } sampleQueue handlerDone { getErr := true }
        sampleStore).1 = IterExit.next :=
  claim6_store_error_policy { } sampleQueue handlerDone { blpopErr := true }
    { } { getErr := true } sampleStore emptyStore sampleStore "job1" []
    rfl rfl rfl rfl rfl rfl

/-- C7: a record that cannot be loaded after a successful claim is treated
exactly as a missed claim — the iteration ends the same way as on a claim
timeout (next iteration when `runForever`, stop otherwise) and performs no
record write. -/
theorem claim7_load_failure_as_missed_claim (cfg : WorkConfig) (q : Queue)
    (fn : Handler) (or orT : Oracle) (s sT : Store) (id : String)
    (rest : List String)
    (hbl : or.blpopErr = false) (hp : s.pending = id :: rest)
    (hload : (if or.getErr then none else s.get (recordKey q.name id))
      = (none : Option (Job × Nat)))
    (hTbl : orT.blpopErr = false) (hTp : sT.pending = []) :
    (workIteration cfg q fn or s).1 = (workIteration cfg q fn orT sT).1
    ∧ (workIteration cfg q fn or s).1
        = (if cfg.infinite then IterExit.next else IterExit.stop)
    ∧ (workIteration cfg q fn or s).2.2 = [] := by
  rw [workIteration_loadFail cfg q fn or s id rest hbl hp hload,
      workIteration_claimTimeout cfg q fn orT sT hTbl hTp]
  exact ⟨rfl, rfl, rfl⟩

/-- C7 witness: a load error beside a claim timeout, default configuration. -/
theorem claim7_load_failure_witness :
    (workIteration { } sampleQueue handlerDone { getErr := true }
        sampleStore).1
      = (workIteration { } sampleQueue handlerDone { } emptyStore).1
    ∧ (workIteration { } sampleQueue handlerDone { getErr := true }
        sampleStore).1 = IterExit.next
    ∧ (workIteration { } sampleQueue handlerDone { getErr := true }
        sampleStore).2.2 = [] :=
  claim7_load_failure_as_missed_claim { } sampleQueue handlerDone
    { getErr := true } { } sampleStore emptyStore "job1" [] rfl rfl rfl rfl rfl

end Rjq
